import Mathlib

/-!
Shallow embedding of the grokipedia-api-sdk client library
(src/grokipedia_api_sdk/{exceptions,models,client}.py).

Modelling conventions:
* JSON documents are an inductive `Json` type; numbers carry their exact
  decimal value as a mantissa/exponent pair `Decimal` (every wire value in
  this API is an exact decimal, so this loses nothing and keeps every
  validator kernel-computable).
* pydantic model classes become Lean structures; `Model.model_validate`
  becomes a function `Json → Except String Model` implementing pydantic v2
  lax-mode coercions for the field types that occur in models.py
  (str accepts only JSON strings; int accepts integral numbers and integer
  strings; float accepts numbers and decimal strings; bool accepts booleans,
  "true"/"false" and 0/1).
* The HTTP transport is an oracle `attempts : Nat → AttemptResult` giving,
  for each attempt index, either the response the server produced for that
  attempt or a transport-level failure (httpx.NetworkError/TimeoutException).
* `Client._request`'s `for attempt in range(self.max_retries)` loop becomes
  structural recursion over `List.range max_retries`; a raised exception
  becomes a `LoopOutcome` / `SdkError` value; the attempt counter in the
  result records how many HTTP attempts were issued.
* `random.uniform(0, x)` inside `_calculate_backoff` becomes an explicit
  rational parameter `u`, constrained by hypotheses where a theorem needs
  its range.
-/

/-- An exact decimal number `m / 10 ^ e`: the value of a JSON number
literal, and of the Python floats this API traffics in (all wire values are
exact decimals, so nothing is lost). -/
structure Decimal where
  m : Int
  e : Nat
deriving Repr, DecidableEq

/-- A JSON value. -/
inductive Json where
  | null
  | bool (b : Bool)
  | num (d : Decimal)
  | str (s : String)
  | arr (elems : List Json)
  | obj (fields : List (String × Json))
deriving Repr

/-- Digits-with-accumulator step of integer parsing. -/
def digitsToNat : List Char → Nat → Option Nat
  | [], acc => some acc
  | c :: cs, acc =>
    if c.isDigit then digitsToNat cs (acc * 10 + (c.toNat - 48)) else none

/-- Parse a non-empty all-digit character list. -/
def parseNatStrict? : List Char → Option Nat
  | [] => none
  | l => digitsToNat l 0

/-- Parse an optionally-signed integer string (Python `int(str)` as pydantic
invokes it on this wire format). -/
def parseInt? (s : String) : Option Int :=
  match s.data with
  | '-' :: rest => (parseNatStrict? rest).map (fun n => -(n : Int))
  | l => (parseNatStrict? l).map (fun n => (n : Int))

/-- Parse an unsigned decimal (digits, optional fraction). -/
def parseDecimalChars? (l : List Char) : Option Decimal :=
  match l.span (fun c => c != '.') with
  | (ip, []) => (parseNatStrict? ip).map (fun n => ⟨(n : Int), 0⟩)
  | (ip, _ :: fp) =>
    match parseNatStrict? ip, parseNatStrict? fp with
    | some i, some f => some ⟨(i : Int) * (10 : Int) ^ fp.length + (f : Int), fp.length⟩
    | _, _ => none

/-- Parse an optionally-signed decimal string; models pydantic's lax
str→float coercion for the decimal strings of this wire format. -/
def parseDecimal? (s : String) : Option Decimal :=
  match s.data with
  | '-' :: rest => (parseDecimalChars? rest).map (fun d => ⟨-d.m, d.e⟩)
  | l => parseDecimalChars? l

/-- pydantic lax coercion to `str`: only JSON strings are accepted. -/
def Json.asStr? : Json → Option String
  | .str s => some s
  | _ => none

/-- pydantic lax coercion to `int`: integral numbers, or strings parsing as
integers. Booleans are rejected (pydantic v2). -/
def Json.asInt? : Json → Option Int
  | .num d =>
    if d.e = 0 then some d.m
    else if d.m % (10 : Int) ^ d.e = 0 then some (d.m / (10 : Int) ^ d.e)
    else none
  | .str s => parseInt? s
  | _ => none

/-- pydantic lax coercion to `float`: numbers, or decimal strings. -/
def Json.asFloat? : Json → Option Decimal
  | .num d => some d
  | .str s => parseDecimal? s
  | _ => none

/-- pydantic lax coercion to `bool`. -/
def Json.asBool? : Json → Option Bool
  | .bool b => some b
  | .str s => if s = "true" then some true else if s = "false" then some false else none
  | .num d =>
    if d.m = 0 then some false
    else if d.m = (10 : Int) ^ d.e then some true
    else none
  | _ => none

/-- pydantic coercion to `list[Any]` (before any field validator). -/
def Json.asArr? : Json → Option (List Json)
  | .arr xs => some xs
  | _ => none

/-- pydantic coercion to `dict[str, Any]` (before any field validator). -/
def Json.asObj? : Json → Option (List (String × Json))
  | .obj fs => some fs
  | _ => none

/-- A required pydantic field: missing or mis-typed input is a validation
error. -/
def requiredField (fields : List (String × Json)) (key : String)
    (coe : Json → Option α) : Except String α :=
  match fields.lookup key with
  | none => .error (key ++ ": Field required")
  | some v =>
    match coe v with
    | none => .error (key ++ ": invalid type")
    | some a => .ok a

/-- A pydantic field with a default: missing input yields the default,
mis-typed input is a validation error. -/
def optionalField (fields : List (String × Json)) (key : String)
    (coe : Json → Option α) (dflt : α) : Except String α :=
  match fields.lookup key with
  | none => .ok dflt
  | some v =>
    match coe v with
    | none => .error (key ++ ": invalid type")
    | some a => .ok a

/-- models.py `SearchResult`. The wire aliases are camelCase; note the
`view_count : Int` field mirrors the source's `view_count: int`. -/
structure SearchResult where
  title_highlights : List Json
  snippet_highlights : List Json
  slug : String
  title : String
  snippet : String
  relevance_score : Decimal
  view_count : Int
deriving Repr

/-- Embeds `SearchResult.model_validate`. -/
def SearchResult.model_validate (j : Json) : Except String SearchResult :=
  match j with
  | .obj fields => do
    let th ← optionalField fields "titleHighlights" Json.asArr? []
    let sh ← optionalField fields "snippetHighlights" Json.asArr? []
    let slug ← requiredField fields "slug" Json.asStr?
    let title ← requiredField fields "title" Json.asStr?
    let snippet ← requiredField fields "snippet" Json.asStr?
    let rs ← requiredField fields "relevanceScore" Json.asFloat?
    let vc ← requiredField fields "viewCount" Json.asInt?
    pure ⟨th, sh, slug, title, snippet, rs, vc⟩
  | _ => .error "Input should be a valid dictionary"

/-- models.py `SearchResponse`. -/
structure SearchResponse where
  results : List SearchResult
deriving Repr

/-- Embeds `SearchResponse.model_validate`. -/
def SearchResponse.model_validate (j : Json) : Except String SearchResponse :=
  match j with
  | .obj fields =>
    match fields.lookup "results" with
    | none => .error "results: Field required"
    | some v =>
      match v.asArr? with
      | none => .error "results: Input should be a valid list"
      | some xs => do
        let rs ← xs.mapM SearchResult.model_validate
        pure ⟨rs⟩
  | _ => .error "Input should be a valid dictionary"

/-- models.py `Citation`. -/
structure Citation where
  id : String
  title : String
  description : String
  url : String
  favicon : String
deriving Repr

/-- Embeds `Citation.model_validate`. -/
def Citation.model_validate (j : Json) : Except String Citation :=
  match j with
  | .obj fields => do
    let i ← requiredField fields "id" Json.asStr?
    let t ← requiredField fields "title" Json.asStr?
    let d ← requiredField fields "description" Json.asStr?
    let u ← requiredField fields "url" Json.asStr?
    let f ← optionalField fields "favicon" Json.asStr? ""
    pure ⟨i, t, d, u, f⟩
  | _ => .error "Input should be a valid dictionary"

/-- models.py `Page`. `metadata`/`stats` (`dict[str, Any]`) are modelled as
association lists of JSON values. -/
structure Page where
  slug : String
  title : String
  content : String
  description : String
  citations : List Citation
  images : List Json
  fixed_issues : List Json
  metadata : List (String × Json)
  stats : List (String × Json)
  linked_pages : List Json
deriving Repr

/-- models.py `Page.convert_none_to_list` (mode="before" field validator on
citations, images, fixed_issues, linked_pages). -/
def Page.convert_none_to_list : Json → Json
  | .null => .arr []
  | v => v

/-- models.py `Page.convert_none_to_dict` (mode="before" field validator on
metadata, stats). -/
def Page.convert_none_to_dict : Json → Json
  | .null => .obj []
  | v => v

/-- Embeds `Page.model_validate`: the before-validators run on present values, then
the declared container types validate. -/
def Page.model_validate (j : Json) : Except String Page :=
  match j with
  | .obj fields => do
    let slug ← requiredField fields "slug" Json.asStr?
    let title ← requiredField fields "title" Json.asStr?
    let content ← optionalField fields "content" Json.asStr? ""
    let description ← optionalField fields "description" Json.asStr? ""
    let citationsJson ← optionalField fields "citations"
      (fun v => (Page.convert_none_to_list v).asArr?) []
    let citations ← citationsJson.mapM Citation.model_validate
    let images ← optionalField fields "images"
      (fun v => (Page.convert_none_to_list v).asArr?) []
    let fixed_issues ← optionalField fields "fixedIssues"
      (fun v => (Page.convert_none_to_list v).asArr?) []
    let metadata ← optionalField fields "metadata"
      (fun v => (Page.convert_none_to_dict v).asObj?) []
    let stats ← optionalField fields "stats"
      (fun v => (Page.convert_none_to_dict v).asObj?) []
    let linked_pages ← optionalField fields "linkedPages"
      (fun v => (Page.convert_none_to_list v).asArr?) []
    pure ⟨slug, title, content, description, citations, images, fixed_issues,
          metadata, stats, linked_pages⟩
  | _ => .error "Input should be a valid dictionary"

/-- models.py `PageResponse`. -/
structure PageResponse where
  page : Page
  found : Bool
deriving Repr

/-- Embeds `PageResponse.model_validate`. -/
def PageResponse.model_validate (j : Json) : Except String PageResponse :=
  match j with
  | .obj fields => do
    let pj ← requiredField fields "page" Json.asObj?
    let p ← Page.model_validate (.obj pj)
    let f ← requiredField fields "found" Json.asBool?
    pure ⟨p, f⟩
  | _ => .error "Input should be a valid dictionary"

/-- models.py `ConstantsResponse`. -/
structure ConstantsResponse where
  account_url : String
  grok_com_url : String
  app_env : String
deriving Repr

/-- Embeds `ConstantsResponse.model_validate`. -/
def ConstantsResponse.model_validate (j : Json) : Except String ConstantsResponse :=
  match j with
  | .obj fields => do
    let a ← requiredField fields "accountUrl" Json.asStr?
    let g ← requiredField fields "grokComUrl" Json.asStr?
    let e ← requiredField fields "appEnv" Json.asStr?
    pure ⟨a, g, e⟩
  | _ => .error "Input should be a valid dictionary"

/-- models.py `StatsResponse`: all five fields required. -/
structure StatsResponse where
  total_pages : String
  total_views : Int
  avg_views_per_page : Decimal
  index_size_bytes : String
  stats_timestamp : String
deriving Repr

/-- Embeds `StatsResponse.model_validate`. -/
def StatsResponse.model_validate (j : Json) : Except String StatsResponse :=
  match j with
  | .obj fields => do
    let tp ← requiredField fields "totalPages" Json.asStr?
    let tv ← requiredField fields "totalViews" Json.asInt?
    let av ← requiredField fields "avgViewsPerPage" Json.asFloat?
    let ib ← requiredField fields "indexSizeBytes" Json.asStr?
    let ts ← requiredField fields "statsTimestamp" Json.asStr?
    pure ⟨tp, tv, av, ib, ts⟩
  | _ => .error "Input should be a valid dictionary"

/-- exceptions.py: the leaves of `GrokipediaAPIError`. `generic` is the base
`GrokipediaAPIError` raised directly for any other non-2xx status. -/
inductive ApiErrorKind where
  | badRequest
  | notFound
  | rateLimited
  | serverError
  | generic
deriving Repr, DecidableEq

/-- The errors a client call can raise. `apiError` covers the whole
`GrokipediaAPIError` family (its kind is the leaf class); `runtimeError`
models Python's built-in `RuntimeError` raised when the client is used
outside its context manager — it is not part of the Grokipedia taxonomy. -/
inductive SdkError where
  | apiError (kind : ApiErrorKind) (status_code : Option Nat) (response_body : Option String)
  | networkError
  | validationError
  | runtimeError
deriving Repr, DecidableEq

/-- An HTTP response as the client observes it: status code, the `.text`
body (`none` when reading it raises), and the result of `.json()`
(`none` when the body is not valid JSON, i.e. `.json()` raises). -/
structure HttpResponse where
  status_code : Nat
  text : Option String
  jsonBody : Option Json
deriving Repr

/-- client.py `BaseClient._handle_http_error`, restricted to the leaf class
it chooses; the raised error is `.apiError (kind status) status text`. -/
def handle_http_error_kind (status_code : Nat) : ApiErrorKind :=
  if status_code = 400 then .badRequest
  else if status_code = 404 then .notFound
  else if status_code = 429 then .rateLimited
  else if 500 ≤ status_code ∧ status_code < 600 then .serverError
  else .generic

/-- client.py `BaseClient._calculate_backoff`; `u` stands for the value the
call `random.uniform(0, 0.1 * backoff)` returned when jitter is enabled. -/
def calculate_backoff (retry_backoff_factor : Rat) (retry_backoff_jitter : Bool)
    (u : Rat) (attempt : Nat) : Rat :=
  let backoff := retry_backoff_factor * 2 ^ attempt
  if retry_backoff_jitter then backoff + u else backoff

/-- client.py `BaseClient._parse_response`: `.json()` failure and pydantic
validation failure both collapse to `GrokipediaValidationError`. -/
def parse_response (r : HttpResponse) (model_validate : Json → Except String α) :
    Except SdkError α :=
  match r.jsonBody with
  | none => .error .validationError
  | some data =>
    match model_validate data with
    | .error _ => .error .validationError
    | .ok v => .ok v

/-- What one iteration of the request loop observes from the transport:
either a response (of any status) or an `httpx.NetworkError` /
`httpx.TimeoutException`. -/
inductive AttemptResult where
  | response (r : HttpResponse)
  | transportFailure
deriving Repr

/-- The statuses retried by `Client._request` / `AsyncClient._request`. -/
def retryable_statuses : List Nat := [429, 500, 502, 503, 504]

/-- How `_request` terminates: return a 2xx response, raise via
`_handle_http_error`, raise `GrokipediaNetworkError` wrapping the last
transport failure, or fall through the loop to the final
`GrokipediaNetworkError("Max retries exceeded")` raise. -/
inductive LoopOutcome where
  | ok (r : HttpResponse)
  | httpError (kind : ApiErrorKind) (status_code : Nat) (response_body : Option String)
  | networkFailure
  | retriesExhausted
deriving Repr

namespace Client

/-- The body of `Client._request`'s `for attempt in range(max_retries)` loop,
run over the list of remaining attempt indices; the `Nat` in the result
counts HTTP attempts actually issued. A 2xx response returns; on
`HTTPStatusError` the last attempt raises via `_handle_http_error` before the
retryable check, a retryable status sleeps and retries, any other status
raises; on a transport failure the last attempt raises
`GrokipediaNetworkError`, otherwise it sleeps and retries. -/
def runAttempts (max_retries : Nat) (attempts : Nat → AttemptResult) :
    List Nat → LoopOutcome × Nat
  | [] => (.retriesExhausted, 0)
  | attempt :: rest =>
    match attempts attempt with
    | .response r =>
      if 200 ≤ r.status_code ∧ r.status_code < 300 then
        (.ok r, 1)
      else if attempt = max_retries - 1 then
        (.httpError (handle_http_error_kind r.status_code) r.status_code r.text, 1)
      else if r.status_code ∈ retryable_statuses then
        let (o, n) := runAttempts max_retries attempts rest
        (o, n + 1)
      else
        (.httpError (handle_http_error_kind r.status_code) r.status_code r.text, 1)
    | .transportFailure =>
      if attempt = max_retries - 1 then
        (.networkFailure, 1)
      else
        let (o, n) := runAttempts max_retries attempts rest
        (o, n + 1)

/-- Embeds `Client._request`'s retry loop plus the fallthrough raise. -/
def requestLoop (max_retries : Nat) (attempts : Nat → AttemptResult) :
    LoopOutcome × Nat :=
  runAttempts max_retries attempts (List.range max_retries)

/-- Embeds `Client._request`: raises `RuntimeError` when `self._client is None`
(outside the `with` scope), otherwise runs the retry loop; raised exceptions
become `.error` values and the count of issued HTTP attempts is kept. -/
def request (connected : Bool) (max_retries : Nat)
    (attempts : Nat → AttemptResult) : Except SdkError HttpResponse × Nat :=
  if connected then
    match requestLoop max_retries attempts with
    | (.ok r, n) => (.ok r, n)
    | (.httpError k s b, n) => (.error (.apiError k (some s) b), n)
    | (.networkFailure, n) => (.error .networkError, n)
    | (.retriesExhausted, n) => (.error .networkError, n)
  else
    (.error .runtimeError, 0)

/-- The shared shape of the four `Client` operations:
`self._parse_response(self._request("GET", url, ...), Model)`. -/
def execute (connected : Bool) (max_retries : Nat)
    (attempts : Nat → AttemptResult) (model_validate : Json → Except String α) :
    Except SdkError α × Nat :=
  match request connected max_retries attempts with
  | (.ok r, n) => (parse_response r model_validate, n)
  | (.error e, n) => (.error e, n)

/-- Query parameters built by `Client.search`. -/
def search_params (query : String) (limit : Int) (offset : Int) :
    List (String × String) :=
  [("query", query), ("limit", toString limit), ("offset", toString offset)]

/-- Python's `str(b).lower()` for a bool `b`. -/
def boolParam (b : Bool) : String := if b then "true" else "false"

/-- Query parameters built by `Client.get_page`. -/
def get_page_params (slug : String) (include_content : Bool)
    (validate_links : Bool) : List (String × String) :=
  [("slug", slug), ("includeContent", boolParam include_content),
   ("validateLinks", boolParam validate_links)]

/-- Embeds `Client.search` (endpoint /api/full-text-search). -/
def search (connected : Bool) (max_retries : Nat)
    (attempts : Nat → AttemptResult) (query : String)
    (limit : Int) (offset : Int) :
    Except SdkError SearchResponse × Nat :=
  let _ := search_params query limit offset
  execute connected max_retries attempts SearchResponse.model_validate

/-- Embeds `Client.get_page` (endpoint /api/page). -/
def get_page (connected : Bool) (max_retries : Nat)
    (attempts : Nat → AttemptResult) (slug : String)
    (include_content : Bool) (validate_links : Bool) :
    Except SdkError PageResponse × Nat :=
  let _ := get_page_params slug include_content validate_links
  execute connected max_retries attempts PageResponse.model_validate

/-- Embeds `Client.get_constants` (endpoint /api/constants). -/
def get_constants (connected : Bool) (max_retries : Nat)
    (attempts : Nat → AttemptResult) :
    Except SdkError ConstantsResponse × Nat :=
  execute connected max_retries attempts ConstantsResponse.model_validate

/-- Embeds `Client.get_stats` (endpoint /api/stats). -/
def get_stats (connected : Bool) (max_retries : Nat)
    (attempts : Nat → AttemptResult) :
    Except SdkError StatsResponse × Nat :=
  execute connected max_retries attempts StatsResponse.model_validate

end Client

namespace AsyncClient

/-- The body of `AsyncClient._request`'s loop (client.py lines 250-273),
translated separately from the synchronous one; it differs in source only by
`await` and `_async_sleep` in place of `time.sleep`. -/
def runAttempts (max_retries : Nat) (attempts : Nat → AttemptResult) :
    List Nat → LoopOutcome × Nat
  | [] => (.retriesExhausted, 0)
  | attempt :: rest =>
    match attempts attempt with
    | .response r =>
      if 200 ≤ r.status_code ∧ r.status_code < 300 then
        (.ok r, 1)
      else if attempt = max_retries - 1 then
        (.httpError (handle_http_error_kind r.status_code) r.status_code r.text, 1)
      else if r.status_code ∈ retryable_statuses then
        let (o, n) := runAttempts max_retries attempts rest
        (o, n + 1)
      else
        (.httpError (handle_http_error_kind r.status_code) r.status_code r.text, 1)
    | .transportFailure =>
      if attempt = max_retries - 1 then
        (.networkFailure, 1)
      else
        let (o, n) := runAttempts max_retries attempts rest
        (o, n + 1)

/-- Embeds `AsyncClient._request`'s retry loop plus the fallthrough raise. -/
def requestLoop (max_retries : Nat) (attempts : Nat → AttemptResult) :
    LoopOutcome × Nat :=
  runAttempts max_retries attempts (List.range max_retries)

/-- Embeds `AsyncClient._request`: `RuntimeError` outside the async context
manager, otherwise the retry loop. -/
def request (connected : Bool) (max_retries : Nat)
    (attempts : Nat → AttemptResult) : Except SdkError HttpResponse × Nat :=
  if connected then
    match requestLoop max_retries attempts with
    | (.ok r, n) => (.ok r, n)
    | (.httpError k s b, n) => (.error (.apiError k (some s) b), n)
    | (.networkFailure, n) => (.error .networkError, n)
    | (.retriesExhausted, n) => (.error .networkError, n)
  else
    (.error .runtimeError, 0)

/-- The shared shape of the four `AsyncClient` operations. -/
def execute (connected : Bool) (max_retries : Nat)
    (attempts : Nat → AttemptResult) (model_validate : Json → Except String α) :
    Except SdkError α × Nat :=
  match request connected max_retries attempts with
  | (.ok r, n) => (parse_response r model_validate, n)
  | (.error e, n) => (.error e, n)

/-- Query parameters built by `AsyncClient.search`. -/
def search_params (query : String) (limit : Int) (offset : Int) :
    List (String × String) :=
  [("query", query), ("limit", toString limit), ("offset", toString offset)]

/-- Query parameters built by `AsyncClient.get_page`. -/
def get_page_params (slug : String) (include_content : Bool)
    (validate_links : Bool) : List (String × String) :=
  [("slug", slug), ("includeContent", Client.boolParam include_content),
   ("validateLinks", Client.boolParam validate_links)]

/-- Embeds `AsyncClient.search`. -/
def search (connected : Bool) (max_retries : Nat)
    (attempts : Nat → AttemptResult) (query : String)
    (limit : Int) (offset : Int) :
    Except SdkError SearchResponse × Nat :=
  let _ := search_params query limit offset
  execute connected max_retries attempts SearchResponse.model_validate

/-- Embeds `AsyncClient.get_page`. -/
def get_page (connected : Bool) (max_retries : Nat)
    (attempts : Nat → AttemptResult) (slug : String)
    (include_content : Bool) (validate_links : Bool) :
    Except SdkError PageResponse × Nat :=
  let _ := get_page_params slug include_content validate_links
  execute connected max_retries attempts PageResponse.model_validate

/-- Embeds `AsyncClient.get_constants`. -/
def get_constants (connected : Bool) (max_retries : Nat)
    (attempts : Nat → AttemptResult) :
    Except SdkError ConstantsResponse × Nat :=
  execute connected max_retries attempts ConstantsResponse.model_validate

/-- Embeds `AsyncClient.get_stats`. -/
def get_stats (connected : Bool) (max_retries : Nat)
    (attempts : Nat → AttemptResult) :
    Except SdkError StatsResponse × Nat :=
  execute connected max_retries attempts StatsResponse.model_validate

end AsyncClient

/-- conftest.py `search_response_data`: the mocked /api/full-text-search
body (relevanceScore 3106.541015625 and 1907.3299560546875 as exact
decimals). -/
def search_response_data : Json :=
  .obj [("results", .arr [
    .obj [("titleHighlights", .arr []), ("snippetHighlights", .arr []),
          ("slug", .str "Python"), ("title", .str "Python"),
          ("snippet", .str "Python is a high-level <em>programming</em> language"),
          ("relevanceScore", .num ⟨3106541015625, 9⟩),
          ("viewCount", .str "90358")],
    .obj [("titleHighlights", .arr []), ("snippetHighlights", .arr []),
          ("slug", .str "Indian_python"), ("title", .str "Indian python"),
          ("snippet", .str "The Indian <em>python</em> is a large snake species"),
          ("relevanceScore", .num ⟨19073299560546875, 13⟩),
          ("viewCount", .str "124804")]])]

/-- The entity `search_response_data` validates to. -/
def search_response_entity : SearchResponse :=
  ⟨[⟨[], [], "Python", "Python",
     "Python is a high-level <em>programming</em> language", ⟨3106541015625, 9⟩, 90358⟩,
    ⟨[], [], "Indian_python", "Indian python",
     "The Indian <em>python</em> is a large snake species", ⟨19073299560546875, 13⟩, 124804⟩]⟩

/-- The transport oracle of test_client.py `test_retry_on_server_error`:
two 500 responses, then a 200 carrying the search body. -/
def retryThenSuccessAttempts : Nat → AttemptResult := fun i =>
  if i < 2 then .response ⟨500, some "Internal Server Error", none⟩
  else .response ⟨200, some "search body", some search_response_data⟩

/-- A stats body containing only `totalPages` (spec section 8 example). -/
def stats_only_total_pages : Json := .obj [("totalPages", .str "885279")]

/-- test_models.py `test_search_result_model` payload: `viewCount` is the
string "12345" on the wire. -/
def view_count_payload : Json :=
  .obj [("slug", .str "Python"), ("title", .str "Python"),
        ("snippet", .str "Python is a programming language"),
        ("relevanceScore", .num ⟨1005, 1⟩), ("viewCount", .str "12345")]

/-- What models.py actually produces for `view_count_payload`: the
`view_count` field holds the integer 12345. -/
def view_count_entity : SearchResult :=
  ⟨[], [], "Python", "Python", "Python is a programming language", ⟨1005, 1⟩, 12345⟩

theorem Client.runAttempts_nil (mr : Nat) (att : Nat → AttemptResult) :
    Client.runAttempts mr att [] = (.retriesExhausted, 0) := rfl

theorem Client.runAttempts_cons_response (mr : Nat) (att : Nat → AttemptResult)
    (a : Nat) (rest : List Nat) (r : HttpResponse) (h : att a = .response r) :
    Client.runAttempts mr att (a :: rest) =
      if 200 ≤ r.status_code ∧ r.status_code < 300 then (.ok r, 1)
      else if a = mr - 1 then
        (.httpError (handle_http_error_kind r.status_code) r.status_code r.text, 1)
      else if r.status_code ∈ retryable_statuses then
        ((Client.runAttempts mr att rest).1, (Client.runAttempts mr att rest).2 + 1)
      else
        (.httpError (handle_http_error_kind r.status_code) r.status_code r.text, 1) := by
  simp only [Client.runAttempts, h]

theorem Client.runAttempts_cons_transport (mr : Nat) (att : Nat → AttemptResult)
    (a : Nat) (rest : List Nat) (h : att a = .transportFailure) :
    Client.runAttempts mr att (a :: rest) =
      if a = mr - 1 then (.networkFailure, 1)
      else ((Client.runAttempts mr att rest).1, (Client.runAttempts mr att rest).2 + 1) := by
  simp only [Client.runAttempts, h]

theorem asyncRunAttempts_cons_response (mr : Nat) (att : Nat → AttemptResult)
    (a : Nat) (rest : List Nat) (r : HttpResponse) (h : att a = .response r) :
    AsyncClient.runAttempts mr att (a :: rest) =
      if 200 ≤ r.status_code ∧ r.status_code < 300 then (.ok r, 1)
      else if a = mr - 1 then
        (.httpError (handle_http_error_kind r.status_code) r.status_code r.text, 1)
      else if r.status_code ∈ retryable_statuses then
        ((AsyncClient.runAttempts mr att rest).1, (AsyncClient.runAttempts mr att rest).2 + 1)
      else
        (.httpError (handle_http_error_kind r.status_code) r.status_code r.text, 1) := by
  simp only [AsyncClient.runAttempts, h]

theorem asyncRunAttempts_cons_transport (mr : Nat) (att : Nat → AttemptResult)
    (a : Nat) (rest : List Nat) (h : att a = .transportFailure) :
    AsyncClient.runAttempts mr att (a :: rest) =
      if a = mr - 1 then (.networkFailure, 1)
      else ((AsyncClient.runAttempts mr att rest).1, (AsyncClient.runAttempts mr att rest).2 + 1) := by
  simp only [AsyncClient.runAttempts, h]

theorem mem_retryable_not_success {s : Nat} (h : s ∈ retryable_statuses) :
    ¬(200 ≤ s ∧ s < 300) := by
  simp only [retryable_statuses, List.mem_cons, List.not_mem_nil, or_false] at h
  rcases h with h | h | h | h | h <;> omega

theorem Client.runAttempts_ne_exhausted (mr : Nat) (att : Nat → AttemptResult) :
    ∀ (n a : Nat), a + n = mr → 1 ≤ n →
      (Client.runAttempts mr att (List.range' a n)).1 ≠ .retriesExhausted := by
  intro n
  induction n with
  | zero => intro a _ h1; omega
  | succ m ih =>
    intro a hsum _
    rw [List.range'_succ a m 1]
    cases hatt : att a with
    | response r =>
      rw [Client.runAttempts_cons_response mr att a _ r hatt]
      split_ifs with h2xx hlast hretry
      · simp
      · simp
      · have hm : 1 ≤ m := by omega
        have := ih (a + 1) (by omega) hm
        simpa using this
      · simp
    | transportFailure =>
      rw [Client.runAttempts_cons_transport mr att a _ hatt]
      split_ifs with hlast
      · simp
      · have hm : 1 ≤ m := by omega
        have := ih (a + 1) (by omega) hm
        simpa using this

theorem Client.runAttempts_httpError (mr : Nat) (att : Nat → AttemptResult) :
    ∀ (n a : Nat) (k : ApiErrorKind) (s : Nat) (b : Option String),
      a + n = mr →
      (Client.runAttempts mr att (List.range' a n)).1 = .httpError k s b →
      k = handle_http_error_kind s ∧ ¬(200 ≤ s ∧ s < 300) ∧
      ∃ r i, a ≤ i ∧ i < mr ∧ att i = .response r ∧
        r.status_code = s ∧ r.text = b := by
  intro n
  induction n with
  | zero =>
    intro a k s b _ heq
    simp [Client.runAttempts_nil] at heq
  | succ m ih =>
    intro a k s b hsum heq
    rw [List.range'_succ a m 1] at heq
    cases hatt : att a with
    | response r =>
      rw [Client.runAttempts_cons_response mr att a _ r hatt] at heq
      by_cases h2xx : 200 ≤ r.status_code ∧ r.status_code < 300
      · rw [if_pos h2xx] at heq
        exact absurd heq (by simp)
      · rw [if_neg h2xx] at heq
        by_cases hlast : a = mr - 1
        · rw [if_pos hlast] at heq
          replace heq : LoopOutcome.httpError (handle_http_error_kind r.status_code)
              r.status_code r.text = LoopOutcome.httpError k s b := heq
          obtain ⟨hk, hs, hb⟩ := LoopOutcome.httpError.inj heq
          subst hs
          exact ⟨hk.symm, h2xx, r, a, le_refl a, by omega, hatt, rfl, hb⟩
        · rw [if_neg hlast] at heq
          by_cases hretry : r.status_code ∈ retryable_statuses
          · rw [if_pos hretry] at heq
            replace heq : (Client.runAttempts mr att (List.range' (a + 1) m)).1 =
                LoopOutcome.httpError k s b := heq
            obtain ⟨h1, h2, r', i, hi1, hi2, hr⟩ := ih (a + 1) k s b (by omega) heq
            exact ⟨h1, h2, r', i, by omega, hi2, hr⟩
          · rw [if_neg hretry] at heq
            replace heq : LoopOutcome.httpError (handle_http_error_kind r.status_code)
                r.status_code r.text = LoopOutcome.httpError k s b := heq
            obtain ⟨hk, hs, hb⟩ := LoopOutcome.httpError.inj heq
            subst hs
            exact ⟨hk.symm, h2xx, r, a, le_refl a, by omega, hatt, rfl, hb⟩
    | transportFailure =>
      rw [Client.runAttempts_cons_transport mr att a _ hatt] at heq
      by_cases hlast : a = mr - 1
      · rw [if_pos hlast] at heq
        exact absurd heq (by simp)
      · rw [if_neg hlast] at heq
        replace heq : (Client.runAttempts mr att (List.range' (a + 1) m)).1 =
            LoopOutcome.httpError k s b := heq
        obtain ⟨h1, h2, r', i, hi1, hi2, hr⟩ := ih (a + 1) k s b (by omega) heq
        exact ⟨h1, h2, r', i, by omega, hi2, hr⟩

theorem Client.runAttempts_success_after_retryable (mr : Nat) (att : Nat → AttemptResult)
    (s : Nat) (hs : s ∈ retryable_statuses) (r : HttpResponse) :
    ∀ (k a n : Nat), a + n = mr → k < n →
      (∀ i, i < k → ∃ ri, att (a + i) = .response ri ∧ ri.status_code = s) →
      att (a + k) = .response r → 200 ≤ r.status_code → r.status_code < 300 →
      Client.runAttempts mr att (List.range' a n) = (.ok r, k + 1) := by
  intro k
  induction k with
  | zero =>
    intro a n hsum hlt hfail hsucc h1 h2
    obtain ⟨m, rfl⟩ : ∃ m, n = m + 1 := ⟨n - 1, by omega⟩
    rw [List.range'_succ a m 1]
    rw [Client.runAttempts_cons_response mr att a _ r (by simpa using hsucc)]
    rw [if_pos ⟨h1, h2⟩]
  | succ j ih =>
    intro a n hsum hlt hfail hsucc h1 h2
    obtain ⟨m, rfl⟩ : ∃ m, n = m + 1 := ⟨n - 1, by omega⟩
    obtain ⟨r0, hr0, hr0s⟩ := hfail 0 (Nat.succ_pos j)
    rw [List.range'_succ a m 1]
    rw [Client.runAttempts_cons_response mr att a _ r0 (by simpa using hr0)]
    rw [if_neg (hr0s ▸ mem_retryable_not_success hs)]
    rw [if_neg (show ¬(a = mr - 1) by omega)]
    rw [if_pos (hr0s ▸ hs)]
    have inner : Client.runAttempts mr att (List.range' (a + 1) m) = (.ok r, j + 1) := by
      refine ih (a + 1) m (by omega) (by omega) ?_ ?_ h1 h2
      · intro i hi
        obtain ⟨ri, hri, hris⟩ := hfail (i + 1) (by omega)
        exact ⟨ri, by rw [show a + 1 + i = a + (i + 1) by omega]; exact hri, hris⟩
      · rw [show a + 1 + j = a + (j + 1) by omega]
        exact hsucc
    rw [inner]

theorem runAttempts_sync_eq_async (mr : Nat) (att : Nat → AttemptResult) :
    ∀ l : List Nat, Client.runAttempts mr att l = AsyncClient.runAttempts mr att l := by
  intro l
  induction l with
  | nil => rfl
  | cons a rest ih =>
    cases hatt : att a with
    | response r =>
      rw [Client.runAttempts_cons_response mr att a rest r hatt,
          asyncRunAttempts_cons_response mr att a rest r hatt, ih]
    | transportFailure =>
      rw [Client.runAttempts_cons_transport mr att a rest hatt,
          asyncRunAttempts_cons_transport mr att a rest hatt, ih]

/-- C1: a request loop that terminates on a non-2xx status raises exactly
the taxonomy kind `_handle_http_error` assigns to that status — 400 ↦
BadRequest, 404 ↦ NotFound, 429 ↦ RateLimited, 500..599 ↦ ServerError,
anything else non-2xx ↦ the generic APIError — and the raised error carries
that status code and the response's raw body text (absent when unreadable). -/
theorem C1_terminal_status_classification :
    (∀ (max_retries : Nat) (attempts : Nat → AttemptResult) (k : ApiErrorKind)
       (s : Nat) (b : Option String) (n : Nat),
       Client.requestLoop max_retries attempts = (.httpError k s b, n) →
         k = handle_http_error_kind s ∧ ¬(200 ≤ s ∧ s < 300) ∧
         Client.request true max_retries attempts = (.error (.apiError k (some s) b), n) ∧
         ∃ r i, i < max_retries ∧ attempts i = .response r ∧
           r.status_code = s ∧ r.text = b)
    ∧ handle_http_error_kind 400 = .badRequest
    ∧ handle_http_error_kind 404 = .notFound
    ∧ handle_http_error_kind 429 = .rateLimited
    ∧ (∀ s, 500 ≤ s → s < 600 → handle_http_error_kind s = .serverError)
    ∧ (∀ s, s ≠ 400 → s ≠ 404 → s ≠ 429 → ¬(500 ≤ s ∧ s < 600) →
        handle_http_error_kind s = .generic) := by
  refine ⟨?_, rfl, rfl, rfl, ?_, ?_⟩
  · intro mr att k s b n heq
    have h1 : (Client.runAttempts mr att (List.range' 0 mr)).1 = .httpError k s b := by
      rw [← List.range_eq_range' mr]
      show (Client.requestLoop mr att).1 = _
      rw [heq]
    obtain ⟨hk, h2, r, i, _, hi2, hr⟩ :=
      Client.runAttempts_httpError mr att mr 0 k s b (by omega) h1
    refine ⟨hk, h2, ?_, r, i, hi2, hr⟩
    simp [Client.request, heq]
  · intro s h5 h6
    simp only [handle_http_error_kind]
    rw [if_neg (by omega), if_neg (by omega), if_neg (by omega), if_pos ⟨h5, h6⟩]
  · intro s h1 h2 h3 h4
    simp only [handle_http_error_kind]
    rw [if_neg h1, if_neg h2, if_neg h3, if_neg h4]

theorem C1_witness :
    ApiErrorKind.notFound = handle_http_error_kind 404 ∧
    ¬(200 ≤ 404 ∧ 404 < 300) ∧
    Client.request true 1 (fun _ => .response ⟨404, some "nope", none⟩) =
      (.error (.apiError .notFound (some 404) (some "nope")), 1) ∧
    ∃ r i, i < 1 ∧
      (fun _ : Nat => AttemptResult.response ⟨404, some "nope", none⟩) i = .response r ∧
      r.status_code = 404 ∧ r.text = some "nope" :=
  C1_terminal_status_classification.1 1 (fun _ => .response ⟨404, some "nope", none⟩)
    .notFound 404 (some "nope") 1 rfl

/-- C2: with max_retries = 3, persistent failure performs exactly 3 attempts
and then raises — all-transport failure raises NetworkError (wrapping the
last cause), all-retryable-status failure raises the classified APIError of
the final response's status. -/
theorem C2_exact_retry_bound :
    ∀ attempts : Nat → AttemptResult,
      ((∀ i, i < 3 → attempts i = .transportFailure) →
        Client.requestLoop 3 attempts = (.networkFailure, 3) ∧
        Client.request true 3 attempts = (.error .networkError, 3))
      ∧ ((∀ i, i < 3 → ∃ r, attempts i = .response r ∧ r.status_code ∈ retryable_statuses) →
        ∃ r, attempts 2 = .response r ∧
          Client.requestLoop 3 attempts =
            (.httpError (handle_http_error_kind r.status_code) r.status_code r.text, 3) ∧
          Client.request true 3 attempts =
            (.error (.apiError (handle_http_error_kind r.status_code)
              (some r.status_code) r.text), 3)) := by
  intro att
  have hrange : List.range 3 = [0, 1, 2] := by decide
  constructor
  · intro h
    have e2 : Client.runAttempts 3 att [2] = (.networkFailure, 1) := by
      rw [Client.runAttempts_cons_transport 3 att 2 [] (h 2 (by omega)),
          if_pos (by norm_num)]
    have e1 : Client.runAttempts 3 att [1, 2] = (.networkFailure, 2) := by
      rw [Client.runAttempts_cons_transport 3 att 1 [2] (h 1 (by omega)),
          if_neg (by omega), e2]
    have e0 : Client.runAttempts 3 att [0, 1, 2] = (.networkFailure, 3) := by
      rw [Client.runAttempts_cons_transport 3 att 0 [1, 2] (h 0 (by omega)),
          if_neg (by omega), e1]
    have hloop : Client.requestLoop 3 att = (.networkFailure, 3) := by
      rw [Client.requestLoop, hrange, e0]
    exact ⟨hloop, by simp [Client.request, hloop]⟩
  · intro h
    obtain ⟨r0, h0, h0m⟩ := h 0 (by omega)
    obtain ⟨r1, h1, h1m⟩ := h 1 (by omega)
    obtain ⟨r2, h2, h2m⟩ := h 2 (by omega)
    have e2 : Client.runAttempts 3 att [2] =
        (.httpError (handle_http_error_kind r2.status_code) r2.status_code r2.text, 1) := by
      rw [Client.runAttempts_cons_response 3 att 2 [] r2 h2,
          if_neg (mem_retryable_not_success h2m), if_pos (by norm_num)]
    have e1 : Client.runAttempts 3 att [1, 2] =
        (.httpError (handle_http_error_kind r2.status_code) r2.status_code r2.text, 2) := by
      rw [Client.runAttempts_cons_response 3 att 1 [2] r1 h1,
          if_neg (mem_retryable_not_success h1m), if_neg (by omega), if_pos h1m, e2]
    have e0 : Client.runAttempts 3 att [0, 1, 2] =
        (.httpError (handle_http_error_kind r2.status_code) r2.status_code r2.text, 3) := by
      rw [Client.runAttempts_cons_response 3 att 0 [1, 2] r0 h0,
          if_neg (mem_retryable_not_success h0m), if_neg (by omega), if_pos h0m, e1]
    have hloop : Client.requestLoop 3 att =
        (.httpError (handle_http_error_kind r2.status_code) r2.status_code r2.text, 3) := by
      rw [Client.requestLoop, hrange, e0]
    exact ⟨r2, h2, hloop, by simp [Client.request, hloop]⟩

theorem C2_witness :
    (Client.requestLoop 3 (fun _ => .transportFailure) = (.networkFailure, 3) ∧
     Client.request true 3 (fun _ => .transportFailure) = (.error .networkError, 3)) ∧
    ∃ r, (fun _ : Nat => AttemptResult.response ⟨500, some "err", none⟩) 2 = .response r ∧
      Client.requestLoop 3 (fun _ => .response ⟨500, some "err", none⟩) =
        (.httpError (handle_http_error_kind r.status_code) r.status_code r.text, 3) ∧
      Client.request true 3 (fun _ => .response ⟨500, some "err", none⟩) =
        (.error (.apiError (handle_http_error_kind r.status_code)
          (some r.status_code) r.text), 3) :=
  ⟨(C2_exact_retry_bound (fun _ => .transportFailure)).1 (fun _ _ => rfl),
   (C2_exact_retry_bound (fun _ => .response ⟨500, some "err", none⟩)).2
     (fun _ _ => ⟨⟨500, some "err", none⟩, rfl, by decide⟩)⟩

/-- C3: for a retryable status (429, 500, 502, 503, 504), failing attempts
followed by a 2xx response within the retry budget make the call return that
response with no error for the earlier attempts; concretely, two 500s then
the conftest search body yield the mapped SearchResponse whose observed
fields equal the corresponding input JSON fields. -/
theorem C3_retryable_then_success_roundtrip :
    (∀ (max_retries : Nat) (attempts : Nat → AttemptResult) (s k : Nat) (r : HttpResponse),
       s ∈ retryable_statuses → k < max_retries →
       (∀ i, i < k → ∃ ri, attempts i = .response ri ∧ ri.status_code = s) →
       attempts k = .response r → 200 ≤ r.status_code → r.status_code < 300 →
       Client.requestLoop max_retries attempts = (.ok r, k + 1) ∧
       Client.request true max_retries attempts = (.ok r, k + 1))
    ∧ Client.search true 3 retryThenSuccessAttempts "test" 12 0 =
        (.ok search_response_entity, 3)
    ∧ search_response_entity.results.map SearchResult.slug = ["Python", "Indian_python"]
    ∧ search_response_entity.results.map SearchResult.title = ["Python", "Indian python"]
    ∧ search_response_entity.results.map SearchResult.snippet =
        ["Python is a high-level <em>programming</em> language",
         "The Indian <em>python</em> is a large snake species"]
    ∧ search_response_entity.results.map SearchResult.relevance_score =
        [⟨3106541015625, 9⟩, ⟨19073299560546875, 13⟩]
    ∧ search_response_entity.results.map SearchResult.view_count = [90358, 124804] := by
  refine ⟨?_, rfl, rfl, rfl, rfl, rfl, rfl⟩
  intro mr att s k r hs hk hfail hsucc h1 h2
  have hloop : Client.requestLoop mr att = (.ok r, k + 1) := by
    rw [Client.requestLoop, List.range_eq_range' mr]
    exact Client.runAttempts_success_after_retryable mr att s hs r k 0 mr (by omega) hk
      (by simpa using hfail) (by simpa using hsucc) h1 h2
  exact ⟨hloop, by simp [Client.request, hloop]⟩

theorem C3_witness :
    Client.requestLoop 3 retryThenSuccessAttempts =
      (.ok ⟨200, some "search body", some search_response_data⟩, 3) ∧
    Client.request true 3 retryThenSuccessAttempts =
      (.ok ⟨200, some "search body", some search_response_data⟩, 3) :=
  C3_retryable_then_success_roundtrip.1 3 retryThenSuccessAttempts 500 2
    ⟨200, some "search body", some search_response_data⟩ (by decide) (by omega)
    (fun i hi => ⟨⟨500, some "Internal Server Error", none⟩,
      by simp [retryThenSuccessAttempts, hi], rfl⟩)
    rfl (by norm_num) (by norm_num)

/-- C4: on a 2xx body the Response Mapper either returns the fully validated
entity or raises the single ValidationError kind; unparseable JSON and
schema mismatch (e.g. a stats body with only totalPages) collapse to that
same kind, never a fragmentary entity, and the number of HTTP attempts a
call performs does not depend on the validator — a validation failure is
never retried. -/
theorem C4_validation_single_error_kind :
    (∀ (α : Type) (r : HttpResponse) (v : Json → Except String α),
       (∃ x data, r.jsonBody = some data ∧ v data = .ok x ∧ parse_response r v = .ok x) ∨
       parse_response r v = .error .validationError)
    ∧ (∀ (α : Type) (v : Json → Except String α) (r : HttpResponse),
       r.jsonBody = none → parse_response r v = .error .validationError)
    ∧ (∀ (α : Type) (v : Json → Except String α) (r : HttpResponse) (data : Json)
         (msg : String),
       r.jsonBody = some data → v data = .error msg →
       parse_response r v = .error .validationError)
    ∧ StatsResponse.model_validate stats_only_total_pages =
        .error "totalViews: Field required"
    ∧ (∀ st : Nat, parse_response ⟨st, some "body", some stats_only_total_pages⟩
         StatsResponse.model_validate = .error .validationError)
    ∧ (∀ (α β : Type) (connected : Bool) (max_retries : Nat)
         (attempts : Nat → AttemptResult)
         (v₁ : Json → Except String α) (v₂ : Json → Except String β),
       (Client.execute connected max_retries attempts v₁).2 =
       (Client.execute connected max_retries attempts v₂).2) := by
  refine ⟨?_, ?_, ?_, rfl, fun st => rfl, ?_⟩
  · intro α r v
    rcases hj : r.jsonBody with _ | data
    · exact Or.inr (by simp [parse_response, hj])
    · rcases hv : v data with msg | x
      · exact Or.inr (by simp [parse_response, hj, hv])
      · exact Or.inl ⟨x, data, rfl, hv, by simp [parse_response, hj, hv]⟩
  · intro α v r hj
    simp [parse_response, hj]
  · intro α v r data msg hj hv
    simp [parse_response, hj, hv]
  · intro α β c mr att v₁ v₂
    rcases hreq : Client.request c mr att with ⟨res, n⟩
    cases res <;> simp [Client.execute, hreq]

theorem C4_witness :
    parse_response ⟨200, none, none⟩ StatsResponse.model_validate =
      .error .validationError ∧
    parse_response ⟨200, some "body", some stats_only_total_pages⟩
      StatsResponse.model_validate = .error .validationError :=
  ⟨C4_validation_single_error_kind.2.1 StatsResponse StatsResponse.model_validate
     ⟨200, none, none⟩ rfl,
   C4_validation_single_error_kind.2.2.1 StatsResponse StatsResponse.model_validate
     ⟨200, some "body", some stats_only_total_pages⟩ stats_only_total_pages
     "totalViews: Field required" rfl rfl⟩

/-- C5: the computed backoff is non-negative; with jitter disabled it is
exactly base_factor * 2 ^ attempt, and with jitter enabled it is that value
plus the uniform draw u, which random.uniform(0, 0.1 * backoff) constrains
to [0, 0.1 * backoff), keeping the total in [backoff, 1.1 * backoff). -/
theorem C5_backoff_formula :
    ∀ (retry_backoff_factor u : Rat) (attempt : Nat),
      0 ≤ retry_backoff_factor → 0 ≤ u →
      calculate_backoff retry_backoff_factor false u attempt =
          retry_backoff_factor * 2 ^ attempt
        ∧ 0 ≤ calculate_backoff retry_backoff_factor false u attempt
        ∧ calculate_backoff retry_backoff_factor true u attempt =
          retry_backoff_factor * 2 ^ attempt + u
        ∧ 0 ≤ calculate_backoff retry_backoff_factor true u attempt
        ∧ (u < (1 / 10) * (retry_backoff_factor * 2 ^ attempt) →
           retry_backoff_factor * 2 ^ attempt ≤
             calculate_backoff retry_backoff_factor true u attempt ∧
           calculate_backoff retry_backoff_factor true u attempt <
             (11 / 10) * (retry_backoff_factor * 2 ^ attempt)) := by
  intro f u a hf hu
  have hpow : (0 : Rat) ≤ f * 2 ^ a := by positivity
  have hjit : calculate_backoff f true u a = f * 2 ^ a + u := rfl
  refine ⟨rfl, hpow, rfl, ?_, fun hlt => ⟨?_, ?_⟩⟩
  · rw [hjit]; linarith
  · rw [hjit]; linarith
  · rw [hjit]; linarith

theorem C5_witness :
    calculate_backoff (1 / 2) true 0 2 = 2 ∧
    (calculate_backoff (1 / 2) false 0 2 = (1 / 2) * 2 ^ 2
      ∧ 0 ≤ calculate_backoff (1 / 2) false 0 2
      ∧ calculate_backoff (1 / 2) true 0 2 = (1 / 2) * 2 ^ 2 + 0
      ∧ 0 ≤ calculate_backoff (1 / 2) true 0 2
      ∧ ((0 : Rat) < (1 / 10) * ((1 / 2) * 2 ^ 2) →
         (1 / 2) * 2 ^ 2 ≤ calculate_backoff (1 / 2) true 0 2 ∧
         calculate_backoff (1 / 2) true 0 2 < (11 / 10) * ((1 / 2) * 2 ^ 2))) :=
  ⟨by norm_num [calculate_backoff], C5_backoff_formula (1 / 2) 0 2 (by norm_num) le_rfl⟩

/-- C6: every operation invoked outside an active scope (the client's
context manager not entered, or already exited, i.e. `self._client is None`)
fails immediately with the RuntimeError usage error — which is neither
NetworkError nor any APIError — and issues zero HTTP attempts; this holds
for all four operations of both facades. -/
theorem C6_usage_error_outside_scope :
    ∀ (max_retries : Nat) (attempts : Nat → AttemptResult) (query slug : String)
      (limit offset : Int) (ic vl : Bool),
      Client.search false max_retries attempts query limit offset =
          (.error .runtimeError, 0)
      ∧ Client.get_page false max_retries attempts slug ic vl = (.error .runtimeError, 0)
      ∧ Client.get_constants false max_retries attempts = (.error .runtimeError, 0)
      ∧ Client.get_stats false max_retries attempts = (.error .runtimeError, 0)
      ∧ AsyncClient.search false max_retries attempts query limit offset =
          (.error .runtimeError, 0)
      ∧ AsyncClient.get_page false max_retries attempts slug ic vl =
          (.error .runtimeError, 0)
      ∧ AsyncClient.get_constants false max_retries attempts = (.error .runtimeError, 0)
      ∧ AsyncClient.get_stats false max_retries attempts = (.error .runtimeError, 0)
      ∧ SdkError.runtimeError ≠ SdkError.networkError
      ∧ (∀ (k : ApiErrorKind) (sc : Option Nat) (b : Option String),
          SdkError.runtimeError ≠ SdkError.apiError k sc b) :=
  fun _ _ _ _ _ _ _ _ =>
    ⟨rfl, rfl, rfl, rfl, rfl, rfl, rfl, rfl, by decide,
     fun _ _ _ h => SdkError.noConfusion h⟩

/-- C7: a getPage payload in which any of the six list/map-typed Page fields
(citations, images, fixedIssues, linkedPages, metadata, stats) is JSON null
validates successfully, with that field coerced to the empty container. -/
theorem C7_null_container_fields_coerce :
    ∀ slug title : String,
      Page.model_validate (.obj [("slug", .str slug), ("title", .str title),
          ("citations", .null)]) = .ok ⟨slug, title, "", "", [], [], [], [], [], []⟩
      ∧ Page.model_validate (.obj [("slug", .str slug), ("title", .str title),
          ("images", .null)]) = .ok ⟨slug, title, "", "", [], [], [], [], [], []⟩
      ∧ Page.model_validate (.obj [("slug", .str slug), ("title", .str title),
          ("fixedIssues", .null)]) = .ok ⟨slug, title, "", "", [], [], [], [], [], []⟩
      ∧ Page.model_validate (.obj [("slug", .str slug), ("title", .str title),
          ("metadata", .null)]) = .ok ⟨slug, title, "", "", [], [], [], [], [], []⟩
      ∧ Page.model_validate (.obj [("slug", .str slug), ("title", .str title),
          ("stats", .null)]) = .ok ⟨slug, title, "", "", [], [], [], [], [], []⟩
      ∧ Page.model_validate (.obj [("slug", .str slug), ("title", .str title),
          ("linkedPages", .null)]) = .ok ⟨slug, title, "", "", [], [], [], [], [], []⟩
      ∧ Page.model_validate (.obj [("slug", .str slug), ("title", .str title),
          ("citations", .null), ("images", .null), ("fixedIssues", .null),
          ("metadata", .null), ("stats", .null), ("linkedPages", .null)]) =
        .ok ⟨slug, title, "", "", [], [], [], [], [], []⟩ :=
  fun _ _ => ⟨rfl, rfl, rfl, rfl, rfl, rfl, rfl⟩

/-- C8: the synchronous and asynchronous facades are functionally identical:
for every connection state, configuration, transport behaviour and
operation, both produce the same value (result entity or error with the same
status), and they build identical query parameters; they differ only in how
they wait. -/
theorem C8_facades_functionally_identical :
    (∀ (connected : Bool) (max_retries : Nat) (attempts : Nat → AttemptResult),
       Client.request connected max_retries attempts =
       AsyncClient.request connected max_retries attempts)
    ∧ (∀ (α : Type) (connected : Bool) (max_retries : Nat)
         (attempts : Nat → AttemptResult) (v : Json → Except String α),
       Client.execute connected max_retries attempts v =
       AsyncClient.execute connected max_retries attempts v)
    ∧ (∀ (connected : Bool) (max_retries : Nat) (attempts : Nat → AttemptResult)
         (query : String) (limit offset : Int),
       Client.search connected max_retries attempts query limit offset =
       AsyncClient.search connected max_retries attempts query limit offset)
    ∧ (∀ (connected : Bool) (max_retries : Nat) (attempts : Nat → AttemptResult)
         (slug : String) (ic vl : Bool),
       Client.get_page connected max_retries attempts slug ic vl =
       AsyncClient.get_page connected max_retries attempts slug ic vl)
    ∧ (∀ (connected : Bool) (max_retries : Nat) (attempts : Nat → AttemptResult),
       Client.get_constants connected max_retries attempts =
       AsyncClient.get_constants connected max_retries attempts)
    ∧ (∀ (connected : Bool) (max_retries : Nat) (attempts : Nat → AttemptResult),
       Client.get_stats connected max_retries attempts =
       AsyncClient.get_stats connected max_retries attempts)
    ∧ (∀ (query : String) (limit offset : Int),
       Client.search_params query limit offset =
       AsyncClient.search_params query limit offset)
    ∧ (∀ (slug : String) (ic vl : Bool),
       Client.get_page_params slug ic vl = AsyncClient.get_page_params slug ic vl) := by
  have hreq : ∀ (c : Bool) (mr : Nat) (att : Nat → AttemptResult),
      Client.request c mr att = AsyncClient.request c mr att := by
    intro c mr att
    rw [Client.request, AsyncClient.request, Client.requestLoop, AsyncClient.requestLoop,
        runAttempts_sync_eq_async]
  have hexec : ∀ (α : Type) (c : Bool) (mr : Nat) (att : Nat → AttemptResult)
      (v : Json → Except String α),
      Client.execute c mr att v = AsyncClient.execute c mr att v := by
    intro α c mr att v
    rw [Client.execute, AsyncClient.execute, hreq]
  exact ⟨hreq, hexec,
    fun c mr att q l o => hexec _ c mr att SearchResponse.model_validate,
    fun c mr att s ic vl => hexec _ c mr att PageResponse.model_validate,
    fun c mr att => hexec _ c mr att ConstantsResponse.model_validate,
    fun c mr att => hexec _ c mr att StatsResponse.model_validate,
    fun _ _ _ => rfl, fun _ _ _ => rfl⟩

/-- C9 counterexample: with max_retries = 0 (a configuration the constructor
accepts), the loop body never runs and the fallthrough "Max retries
exceeded" NetworkError raise after the loop does execute — the execution
neither returns a 2xx response nor raises inside an iteration, refuting the
claim's "for every configuration". -/
theorem C9_counterexample_zero_max_retries :
    Client.requestLoop 0 (fun _ => .transportFailure) = (.retriesExhausted, 0) ∧
    Client.request true 0 (fun _ => .transportFailure) = (.error .networkError, 0) ∧
    AsyncClient.requestLoop 0 (fun _ => .transportFailure) = (.retriesExhausted, 0) :=
  ⟨rfl, rfl, rfl⟩

/-- C9 (amended): for every configuration with max_retries ≥ 1 and every
sequence of attempt outcomes, the fallthrough raise after the loop is
unreachable — every execution returns a 2xx response or raises an explicit
error inside some iteration — in both facades. -/
theorem C9_fallthrough_unreachable_when_retries_pos :
    ∀ (max_retries : Nat) (attempts : Nat → AttemptResult), 1 ≤ max_retries →
      (Client.requestLoop max_retries attempts).1 ≠ .retriesExhausted ∧
      (AsyncClient.requestLoop max_retries attempts).1 ≠ .retriesExhausted := by
  intro mr att h1
  constructor
  · rw [Client.requestLoop, List.range_eq_range' mr]
    exact Client.runAttempts_ne_exhausted mr att mr 0 (by omega) h1
  · rw [AsyncClient.requestLoop, List.range_eq_range' mr, ← runAttempts_sync_eq_async]
    exact Client.runAttempts_ne_exhausted mr att mr 0 (by omega) h1

theorem C9_witness :
    (Client.requestLoop 1 (fun _ => .transportFailure)).1 ≠ .retriesExhausted ∧
    (AsyncClient.requestLoop 1 (fun _ => .transportFailure)).1 ≠ .retriesExhausted :=
  C9_fallthrough_unreachable_when_retries_pos 1 (fun _ => .transportFailure) le_rfl

/-- C10: the code stores SearchResult.view_count as an integer — validating
the repo's own test payload (viewCount the string "12345") yields the
integer 12345, not the string the spec's data-model table and
test_models.py's assertion (`result.view_count == "12345"`) prescribe. -/
theorem C10_view_count_stored_as_int :
    SearchResult.model_validate view_count_payload = .ok view_count_entity ∧
    view_count_entity.view_count = (12345 : Int) ∧
    Json.asInt? (.str "12345") = some 12345 :=
  ⟨rfl, rfl, rfl⟩
